import Mathlib

/-!
Verification of the `lightspeed` relativistic-travel visualizer core.

This file gives a shallow embedding of the repository's core logic:

* `src/utils/relativity.ts` — the pure physics engine
  (`calculateLorentzFactor`, `calculateTimeDilation`,
  `calculateLengthContraction`, momentum/energy functions,
  travel-time/distance helpers, `calculateAllEffectsWithDistance`)
  and the duration formatter `formatTime`;
* `src/components/RelativisticClock.tsx` — the stateful dual-clock
  integrator (the interval tick, the dilation-factor update, reset).

Modelling conventions:

* JavaScript numbers are modelled as exact scalars of a linear ordered
  field (ℝ for the physics functions, which use `Math.sqrt`; ℚ for the
  formatter and the clock, which use only field operations, `Math.floor`,
  `Math.round` and the JS `%` operator).  IEEE-754 rounding is not
  modelled; the claims settled here concern control flow, branch
  structure, signs and exact algebraic identities, which are insensitive
  to that idealization.  JS division by zero (which yields `Infinity`)
  is mapped to Lean's total division (`x / 0 = 0`); no claim settled
  below depends on the numeric value produced by a division by zero,
  only on whether an error is raised.
* A JS `throw new Error(...)` is modelled as `Except.error` carrying a
  `DomainError` with the thrown message; functions with no `throw` on
  any path are modelled as total functions.
* `Math.floor` is `Int.floor`, `Math.round` is `⌊x + 1/2⌋` (JS rounds
  half-up), the JS `%` operator truncates the quotient toward zero, and
  `toFixed(2)` rounds to the nearest hundredth.
-/

namespace Lightspeed

/-- A thrown `Error` from the engine (the spec's single `DomainError` kind),
carrying the thrown message. -/
structure DomainError where
  message : String

/- ### Constants from `src/utils/relativity.ts` -/

/-- `SPEED_OF_LIGHT = 299792458` (m/s). -/
def SPEED_OF_LIGHT : ℝ := 299792458

/-- `DAYS_PER_YEAR = 365.25`. -/
def DAYS_PER_YEAR {K : Type} [DivisionRing K] : K := 36525 / 100

/-- `HOURS_PER_DAY = 24`. -/
def HOURS_PER_DAY {K : Type} [DivisionRing K] : K := 24

/-- `DAYS_PER_MONTH = 30.44` (average days per month). -/
def DAYS_PER_MONTH {K : Type} [DivisionRing K] : K := 3044 / 100

/- ### JS numeric primitives used by `formatTime` -/

/-- Truncation toward zero, as used by the JS `%` operator. -/
def jsTrunc {K : Type} [LinearOrderedField K] [FloorRing K] (q : K) : ℤ :=
  if q < 0 then -⌊-q⌋ else ⌊q⌋

/-- The JS remainder operator `a % b` (sign follows the dividend:
`a % b = a - b * trunc(a / b)`). -/
def jsMod {K : Type} [LinearOrderedField K] [FloorRing K] (a b : K) : K :=
  a - b * (jsTrunc (a / b) : K)

/-- JS `Math.round` (rounds half toward positive infinity). -/
def jsRound {K : Type} [LinearOrderedField K] [FloorRing K] (q : K) : ℤ :=
  ⌊q + 1 / 2⌋

/-- Two-digit zero padding for the fractional part of `toFixed(2)`. -/
def pad2 (n : ℕ) : String :=
  if n < 10 then "0" ++ toString n else toString n

/-- JS `Number.prototype.toFixed(2)`: round to the nearest hundredth and
print with exactly two decimals. -/
def jsToFixed2 {K : Type} [LinearOrderedField K] [FloorRing K] (t : K) : String :=
  let n := jsRound (t * 100)
  (if n < 0 then "-" else "") ++ toString (n.natAbs / 100) ++ "." ++ pad2 (n.natAbs % 100)

/-- JS default rendering of a number that is an integer multiple of one
tenth (the only non-integer values `formatTime` ever prints): an exact
integer prints with no decimal point, otherwise one decimal digit is
printed.  `k` is the value scaled by ten. -/
def renderTenths (k : ℤ) : String :=
  (if k < 0 then "-" else "") ++ toString (k.natAbs / 10) ++
    (if k.natAbs % 10 = 0 then "" else "." ++ toString (k.natAbs % 10))

/- ### `formatTime` (the spec's DurationFormatter) -/

/-- The `FormattedTime` interface: optional year/month/day/hour components,
the original duration in years, and the canonical rendered string. -/
structure FormattedTime (K : Type) where
  years : Option K := none
  months : Option K := none
  days : Option K := none
  hours : Option K := none
  totalYears : K
  formatted : String

/-- `formatTime` from `src/utils/relativity.ts`, transcribed branch for
branch.  Note the source performs no input validation and the
`years`-branch string is always `"... years"` (no singular form),
while the month/day/hour units are pluralized with
`value !== 1 ? "s" : ""`. -/
def formatTime {K : Type} [LinearOrderedField K] [FloorRing K]
    (timeInYears : K) : FormattedTime K :=
  let totalYears := timeInYears
  if 1 ≤ timeInYears then
    { years := some timeInYears, totalYears,
      formatted := jsToFixed2 timeInYears ++ " years" }
  else
    let totalDays := timeInYears * DAYS_PER_YEAR
    if DAYS_PER_MONTH ≤ totalDays then
      let months : ℤ := ⌊totalDays / DAYS_PER_MONTH⌋
      let remainingDays : ℤ := ⌊jsMod totalDays DAYS_PER_MONTH⌋
      let remainingHours : ℤ := ⌊jsMod totalDays 1 * HOURS_PER_DAY⌋
      let f0 := toString months ++ (" month" ++ (if months = 1 then "" else "s"))
      let f1 := f0 ++ (if 0 < remainingDays then
        ", " ++ (toString remainingDays ++ (" day" ++ (if remainingDays = 1 then "" else "s"))) else "")
      let f2 := f1 ++ (if 0 < remainingHours then
        ", " ++ (toString remainingHours ++ (" hour" ++ (if remainingHours = 1 then "" else "s"))) else "")
      { months := some (months : K), days := some (remainingDays : K),
        hours := some (remainingHours : K), totalYears, formatted := f2 }
    else if 1 ≤ totalDays then
      let days : ℤ := ⌊totalDays⌋
      let hours : ℤ := ⌊jsMod totalDays 1 * HOURS_PER_DAY⌋
      let f0 := toString days ++ (" day" ++ (if days = 1 then "" else "s"))
      let f1 := f0 ++ (if 0 < hours then
        ", " ++ (toString hours ++ (" hour" ++ (if hours = 1 then "" else "s"))) else "")
      { days := some (days : K), hours := some (hours : K), totalYears, formatted := f1 }
    else
      let hoursTenths : ℤ := jsRound (totalDays * HOURS_PER_DAY * 10)
      let hours : K := (hoursTenths : K) / 10
      { hours := some hours, totalYears,
        formatted := renderTenths hoursTenths ++
          (" hour" ++ (if hours = 1 then "" else "s")) }

/-- The list of units rendered in `formatTime`'s canonical string, in
order: each entry is (rendered number, component value, unit text as it
appears in the string, leading space included).  It follows exactly the
branch structure of `formatTime`; the theorem for claim C9 below proves
that joining these tokens (comma-separated, as the source's `+=`
concatenation does) reproduces `(formatTime t).formatted`. -/
def formatTokens {K : Type} [LinearOrderedField K] [FloorRing K]
    (timeInYears : K) : List (String × K × String) :=
  if 1 ≤ timeInYears then
    [(jsToFixed2 timeInYears, timeInYears, " years")]
  else
    let totalDays := timeInYears * DAYS_PER_YEAR
    if DAYS_PER_MONTH ≤ totalDays then
      let months : ℤ := ⌊totalDays / DAYS_PER_MONTH⌋
      let remainingDays : ℤ := ⌊jsMod totalDays DAYS_PER_MONTH⌋
      let remainingHours : ℤ := ⌊jsMod totalDays 1 * HOURS_PER_DAY⌋
      [(toString months, (months : K), " month" ++ (if months = 1 then "" else "s"))]
      ++ (if 0 < remainingDays then
        [(toString remainingDays, (remainingDays : K), " day" ++ (if remainingDays = 1 then "" else "s"))] else [])
      ++ (if 0 < remainingHours then
        [(toString remainingHours, (remainingHours : K), " hour" ++ (if remainingHours = 1 then "" else "s"))] else [])
    else if 1 ≤ totalDays then
      let days : ℤ := ⌊totalDays⌋
      let hours : ℤ := ⌊jsMod totalDays 1 * HOURS_PER_DAY⌋
      [(toString days, (days : K), " day" ++ (if days = 1 then "" else "s"))]
      ++ (if 0 < hours then
        [(toString hours, (hours : K), " hour" ++ (if hours = 1 then "" else "s"))] else [])
    else
      let hoursTenths : ℤ := jsRound (totalDays * HOURS_PER_DAY * 10)
      [(renderTenths hoursTenths, (hoursTenths : K) / 10,
        " hour" ++ (if (hoursTenths : K) / 10 = 1 then "" else "s"))]

/-- Render one token of `formatTokens` (number followed by unit text). -/
def renderTok {K : Type} (p : String × K × String) : String := p.1 ++ p.2.2

/-- Join rendered tokens the way `formatTime` concatenates them: the
first token, then `", "` before every further token. -/
def joinTokens {K : Type} (l : List (String × K × String)) : String :=
  match l with
  | [] => ""
  | p :: ps => ps.foldl (fun acc q => acc ++ (", " ++ renderTok q)) (renderTok p)

/-- Does a unit string end in the plural marker letter s? -/
def endsInS (s : String) : Bool := s.data.getLast? == some 's'

/- ### PhysicsEngine (`src/utils/relativity.ts`) over ℝ -/

/-- `calculateLorentzFactor`: γ = 1/√(1 − v²); throws for `v < 0 || v >= 1`. -/
noncomputable def calculateLorentzFactor (velocityFraction : ℝ) : Except DomainError ℝ :=
  if velocityFraction < 0 ∨ 1 ≤ velocityFraction then
    .error ⟨"Velocity fraction must be between 0 and 1 (exclusive of 1)"⟩
  else
    .ok (1 / Real.sqrt (1 - velocityFraction ^ 2))

/-- The value of the Lorentz factor on the valid domain. -/
noncomputable def gammaVal (velocityFraction : ℝ) : ℝ :=
  1 / Real.sqrt (1 - velocityFraction ^ 2)

/-- `calculateTimeDilation`: `properTime * γ`. -/
noncomputable def calculateTimeDilation (properTime velocityFraction : ℝ) :
    Except DomainError ℝ := do
  let gamma ← calculateLorentzFactor velocityFraction
  pure (properTime * gamma)

/-- `calculateLengthContraction`: `properLength / γ`. -/
noncomputable def calculateLengthContraction (properLength velocityFraction : ℝ) :
    Except DomainError ℝ := do
  let gamma ← calculateLorentzFactor velocityFraction
  pure (properLength / gamma)

/-- `calculateRelativisticMomentum`: `γ * m * (v * c)`. -/
noncomputable def calculateRelativisticMomentum (restMass velocityFraction : ℝ) :
    Except DomainError ℝ := do
  let gamma ← calculateLorentzFactor velocityFraction
  let velocity := velocityFraction * SPEED_OF_LIGHT
  pure (gamma * restMass * velocity)

/-- `calculateRelativisticKineticEnergy`: `(γ − 1) * m * c²`. -/
noncomputable def calculateRelativisticKineticEnergy (restMass velocityFraction : ℝ) :
    Except DomainError ℝ := do
  let gamma ← calculateLorentzFactor velocityFraction
  let restEnergy := restMass * SPEED_OF_LIGHT ^ 2
  pure ((gamma - 1) * restEnergy)

/-- `calculateTotalRelativisticEnergy`: `γ * m * c²`. -/
noncomputable def calculateTotalRelativisticEnergy (restMass velocityFraction : ℝ) :
    Except DomainError ℝ := do
  let gamma ← calculateLorentzFactor velocityFraction
  let restEnergy := restMass * SPEED_OF_LIGHT ^ 2
  pure (gamma * restEnergy)

/-- `fractionToPercentage`: `fraction * 100`; throws for `fraction < 0 || fraction >= 1`. -/
noncomputable def fractionToPercentage (fraction : ℝ) : Except DomainError ℝ :=
  if fraction < 0 ∨ 1 ≤ fraction then
    .error ⟨"Fraction must be between 0 and 1 (exclusive of 1)"⟩
  else
    .ok (fraction * 100)

/-- `calculateContractedDistance`: `properDistance / γ`. -/
noncomputable def calculateContractedDistance
    (properDistanceLightYears velocityFraction : ℝ) : Except DomainError ℝ := do
  let gamma ← calculateLorentzFactor velocityFraction
  pure (properDistanceLightYears / gamma)

/-- `calculateTravelTimeInYears`: `distance / velocityFraction`, with no
guard of any kind — the source divides unconditionally (in JS a zero
velocity yields `Infinity`; here division by zero is Lean's total
division). -/
noncomputable def calculateTravelTimeInYears
    (distanceLightYears velocityFraction : ℝ) : ℝ :=
  distanceLightYears / velocityFraction

/-- `calculateProperTravelTimeInYears`: coordinate time divided by γ. -/
noncomputable def calculateProperTravelTimeInYears
    (distanceLightYears velocityFraction : ℝ) : Except DomainError ℝ := do
  let coordinateTimeYears := calculateTravelTimeInYears distanceLightYears velocityFraction
  let gamma ← calculateLorentzFactor velocityFraction
  pure (coordinateTimeYears / gamma)

/-- The anonymous record returned by `calculateDistanceEffects`. -/
structure DistanceEffects where
  properDistance : ℝ
  contractedDistance : ℝ
  contractionFactor : ℝ
  coordinateTime : ℝ
  properTime : ℝ
  properTimeFormatted : FormattedTime ℝ
  coordinateTimeFormatted : FormattedTime ℝ
  timeDilationFactor : ℝ

/-- `calculateDistanceEffects`. -/
noncomputable def calculateDistanceEffects
    (properDistanceLightYears velocityFraction : ℝ) : Except DomainError DistanceEffects := do
  let contractedDistance ← calculateContractedDistance properDistanceLightYears velocityFraction
  let coordinateTime := calculateTravelTimeInYears properDistanceLightYears velocityFraction
  let properTime ← calculateProperTravelTimeInYears properDistanceLightYears velocityFraction
  pure { properDistance := properDistanceLightYears
         contractedDistance := contractedDistance
         contractionFactor := contractedDistance / properDistanceLightYears
         coordinateTime := coordinateTime
         properTime := properTime
         properTimeFormatted := formatTime properTime
         coordinateTimeFormatted := formatTime coordinateTime
         timeDilationFactor := coordinateTime / properTime }

/-- The `RelativisticEffects` interface. -/
structure RelativisticEffects where
  velocityFraction : ℝ
  percentageOfLightSpeed : ℝ
  lorentzFactor : ℝ
  timeDilationFactor : ℝ
  lengthContractionFactor : ℝ

/-- The `RelativisticDistanceEffects` interface (the spec's `JourneySnapshot`). -/
structure RelativisticDistanceEffects extends RelativisticEffects where
  properDistance : ℝ
  contractedDistance : ℝ
  coordinateTime : ℝ
  properTime : ℝ
  properTimeFormatted : FormattedTime ℝ
  coordinateTimeFormatted : FormattedTime ℝ

/-- `calculateAllEffects`. -/
noncomputable def calculateAllEffects (velocityFraction : ℝ) :
    Except DomainError RelativisticEffects := do
  let gamma ← calculateLorentzFactor velocityFraction
  let percentage ← fractionToPercentage velocityFraction
  pure { velocityFraction := velocityFraction
         percentageOfLightSpeed := percentage
         lorentzFactor := gamma
         timeDilationFactor := gamma
         lengthContractionFactor := 1 / gamma }

/-- `calculateAllEffectsWithDistance` (the spec's `journeyEffects`): the
merge of `calculateAllEffects` and `calculateDistanceEffects`; the
spread keeps `timeDilationFactor` from the basic effects. -/
noncomputable def calculateAllEffectsWithDistance
    (velocityFraction distanceLightYears : ℝ) :
    Except DomainError RelativisticDistanceEffects := do
  let basicEffects ← calculateAllEffects velocityFraction
  let distanceEffects ← calculateDistanceEffects distanceLightYears velocityFraction
  pure { toRelativisticEffects := basicEffects
         properDistance := distanceEffects.properDistance
         contractedDistance := distanceEffects.contractedDistance
         coordinateTime := distanceEffects.coordinateTime
         properTime := distanceEffects.properTime
         properTimeFormatted := distanceEffects.properTimeFormatted
         coordinateTimeFormatted := distanceEffects.coordinateTimeFormatted }

/- ### ClockSimulator (`src/components/RelativisticClock.tsx`) over ℚ -/

/-- The mutable state of the dual clock: the two accumulators (seconds),
the wall-clock timestamp of the last integration step (milliseconds,
`lastUpdateRef`), and the dilation factor applied to future ticks
(`currentTimeDilationRef`). -/
structure ClockState where
  spacecraftTime : ℚ
  earthTime : ℚ
  lastUpdate : ℚ
  currentTimeDilation : ℚ

/-- One firing of the interval callback: `deltaTime = (now − lastUpdate)/1000`
seconds, added to the spacecraft accumulator and, scaled by the current
dilation factor, to the Earth accumulator; `lastUpdate` becomes `now`.
The source applies the delta unconditionally — there is no clamping of a
negative delta. -/
def tick (s : ClockState) (now : ℚ) : ClockState :=
  let deltaTime := (now - s.lastUpdate) / 1000
  { s with
    spacecraftTime := s.spacecraftTime + deltaTime
    earthTime := s.earthTime + deltaTime * s.currentTimeDilation
    lastUpdate := now }

/-- The `useEffect` reacting to a `timeDilationFactor` prop change:
`currentTimeDilationRef.current = timeDilationFactor`.  Future ticks
only; the accumulators are untouched. -/
def setDilationFactor (s : ClockState) (factor : ℚ) : ClockState :=
  { s with currentTimeDilation := factor }

/-- Mount-time initialization: both accumulators at zero,
`lastUpdateRef.current = Date.now()`, dilation ref set from the prop. -/
def startClock (timeDilationFactor now : ℚ) : ClockState :=
  { spacecraftTime := 0, earthTime := 0, lastUpdate := now,
    currentTimeDilation := timeDilationFactor }

/-- `resetClocks`: zero both accumulators and refresh `lastUpdate`. -/
def resetClocks (s : ClockState) (now : ℚ) : ClockState :=
  { s with spacecraftTime := 0, earthTime := 0, lastUpdate := now }

/-- An event in the life of the clock: an interval firing at timestamp
`now`, or a dilation-factor update. -/
inductive ClockEvent where
  | tick (now : ℚ)
  | setFactor (factor : ℚ)

/-- Apply one event to the clock state. -/
def applyEvent (s : ClockState) : ClockEvent → ClockState
  | .tick now => tick s now
  | .setFactor g => setDilationFactor s g

/-- Run a sequence of clock events. -/
def runEvents (s : ClockState) : List ClockEvent → ClockState
  | [] => s
  | e :: es => runEvents (applyEvent s e) es

/-- The timestamps of the tick events are non-decreasing (each tick fires
no earlier than the state's last recorded update). -/
def monoStamps (s : ClockState) : List ClockEvent → Prop
  | [] => True
  | .tick now :: es => s.lastUpdate ≤ now ∧ monoStamps (tick s now) es
  | .setFactor g :: es => monoStamps (setDilationFactor s g) es

/-- Every dilation factor in play during the sequence — the initial one
and every one set along the way — is at least `c`. -/
def factorsGe (c : ℚ) (s : ClockState) (es : List ClockEvent) : Prop :=
  c ≤ s.currentTimeDilation ∧ ∀ e ∈ es, ∀ g, e = ClockEvent.setFactor g → c ≤ g

/-- The pluralization rule the spec states for `formatTime`'s canonical
string: a unit carries the plural marker exactly when its value is not 1.
Stated of a token of `formatTokens`. -/
def pluralIffNeOne {K : Type} [LinearOrderedField K] (p : String × K × String) : Prop :=
  endsInS p.2.2 = true ↔ p.2.1 ≠ 1

/-- The pluralization rule the source actually implements: month/day/hour
units carry the plural marker exactly when the value is not 1, but the
years unit is always rendered plural. -/
def pluralRule {K : Type} [LinearOrderedField K] (p : String × K × String) : Prop :=
  endsInS p.2.2 = true ↔ (p.2.1 ≠ 1 ∨ p.2.2 = " years")

/- ### Helper lemmas -/

theorem ok_bind {ε α β : Type} (a : α) (f : α → Except ε β) :
    (Except.ok a : Except ε α) >>= f = f a := rfl

theorem pure_ok {ε α : Type} (a : α) : (pure a : Except ε α) = Except.ok a := rfl

/-- On the valid domain the guard does not fire and the Lorentz factor is
returned. -/
theorem lorentz_ok {v : ℝ} (h0 : 0 ≤ v) (h1 : v < 1) :
    calculateLorentzFactor v = .ok (gammaVal v) := by
  rw [calculateLorentzFactor, if_neg]
  · rfl
  · push_neg
    exact ⟨h0, h1⟩

theorem sqrt_one_sub_sq_pos {v : ℝ} (h0 : 0 ≤ v) (h1 : v < 1) :
    0 < Real.sqrt (1 - v ^ 2) := by
  apply Real.sqrt_pos.mpr
  nlinarith

theorem gammaVal_pos {v : ℝ} (h0 : 0 ≤ v) (h1 : v < 1) : 0 < gammaVal v := by
  have := sqrt_one_sub_sq_pos h0 h1
  unfold gammaVal
  positivity

theorem one_le_gammaVal {v : ℝ} (h0 : 0 ≤ v) (h1 : v < 1) : 1 ≤ gammaVal v := by
  have hpos := sqrt_one_sub_sq_pos h0 h1
  have hle : Real.sqrt (1 - v ^ 2) ≤ 1 := Real.sqrt_le_one.mpr (by nlinarith)
  rw [gammaVal, le_div_iff₀ hpos, one_mul]
  exact hle

theorem gammaVal_zero : gammaVal 0 = 1 := by
  rw [gammaVal]
  norm_num [Real.sqrt_one]

/-- The JS remainder of nonnegative operands is nonnegative. -/
theorem jsMod_nonneg {K : Type} [LinearOrderedField K] [FloorRing K]
    {a b : K} (ha : 0 ≤ a) (hb : 0 < b) : 0 ≤ jsMod a b := by
  have hq : 0 ≤ a / b := div_nonneg ha hb.le
  rw [jsMod, jsTrunc, if_neg (not_lt.mpr hq)]
  have hfl : (⌊a / b⌋ : K) ≤ a / b := Int.floor_le _
  have hmul : b * (⌊a / b⌋ : K) ≤ b * (a / b) :=
    mul_le_mul_of_nonneg_left hfl hb.le
  have hcancel : b * (a / b) = a := by
    field_simp
  linarith

end Lightspeed

namespace Lightspeed

/- ### Claim theorems -/

/-- C2: dilation-factor changes are forward-only.  Starting the clock (at
timestamp 0, factor 2) and ticking at timestamp 1000 ms (a one-second
delta) yields travelerElapsed = 1 and observerElapsed = 2; setting the
factor to 5 and ticking at 2000 ms yields travelerElapsed = 2 and
observerElapsed = 7, not 10 — accumulated observer time is never
retroactively rescaled. -/
theorem clock_factor_change_forward_only :
    (tick (startClock 2 0) 1000).spacecraftTime = 1 ∧
    (tick (startClock 2 0) 1000).earthTime = 2 ∧
    (tick (setDilationFactor (tick (startClock 2 0) 1000) 5) 2000).spacecraftTime = 2 ∧
    (tick (setDilationFactor (tick (startClock 2 0) 1000) 5) 2000).earthTime = 7 := by
  norm_num [tick, startClock, setDilationFactor]

/-- C3 counterexample: the interval callback does not clamp a negative
delta.  From the state with lastUpdate = 1000 ms and both accumulators at
0 (factor 2), a tick at timestamp 0 subtracts one second from the
spacecraft accumulator and two from the Earth accumulator, contradicting
the claim that both accumulators are left unchanged. -/
theorem tick_nonmonotonic_counterexample :
    (tick ⟨0, 0, 1000, 2⟩ 0).spacecraftTime = -1 ∧
    (tick ⟨0, 0, 1000, 2⟩ 0).earthTime = -2 ∧
    ¬ ((tick ⟨0, 0, 1000, 2⟩ 0).spacecraftTime = 0 ∧
       (tick ⟨0, 0, 1000, 2⟩ 0).earthTime = 0) := by
  norm_num [tick]

/-- C3 amended: a tick with `now < lastTick` does not treat the delta as
0 — the negative delta is applied as-is, so the spacecraft accumulator
strictly decreases, and so does the Earth accumulator whenever the
current dilation factor is positive.  (No error is raised: `tick` is a
total function, as in the source, which has no failure path.) -/
theorem tick_nonmonotonic_subtracts (s : ClockState) (now : ℚ)
    (h : now < s.lastUpdate) :
    (tick s now).spacecraftTime < s.spacecraftTime ∧
    (0 < s.currentTimeDilation → (tick s now).earthTime < s.earthTime) := by
  have hneg : (now - s.lastUpdate) / 1000 < 0 :=
    div_neg_of_neg_of_pos (by linarith) (by norm_num)
  constructor
  · simp only [tick]
    linarith
  · intro hdil
    simp only [tick]
    nlinarith

/-- Witness for the amended C3 theorem at a concrete state. -/
theorem tick_nonmonotonic_subtracts_witness :
    (0 : ℚ) < (⟨0, 0, 1000, 2⟩ : ClockState).lastUpdate ∧
    (tick ⟨0, 0, 1000, 2⟩ 0).spacecraftTime < (⟨0, 0, 1000, 2⟩ : ClockState).spacecraftTime ∧
    (tick ⟨0, 0, 1000, 2⟩ 0).earthTime < (⟨0, 0, 1000, 2⟩ : ClockState).earthTime :=
  ⟨by norm_num, (tick_nonmonotonic_subtracts ⟨0, 0, 1000, 2⟩ 0 (by norm_num)).1,
    (tick_nonmonotonic_subtracts ⟨0, 0, 1000, 2⟩ 0 (by norm_num)).2 (by norm_num)⟩

/-- C5: on `[0, 1)` the Lorentz factor is returned (no error), is at
least 1, equals exactly 1 at `v = 0`, and is strictly increasing; for
`v < 0` or `v ≥ 1` the function fails with the domain error. -/
theorem lorentz_factor_spec :
    (∀ v : ℝ, 0 ≤ v → v < 1 →
      calculateLorentzFactor v = .ok (gammaVal v) ∧ 1 ≤ gammaVal v) ∧
    calculateLorentzFactor 0 = .ok 1 ∧
    (∀ v₁ v₂ : ℝ, 0 ≤ v₁ → v₁ < v₂ → v₂ < 1 → gammaVal v₁ < gammaVal v₂) ∧
    (∀ v : ℝ, v < 0 ∨ 1 ≤ v →
      calculateLorentzFactor v =
        .error ⟨"Velocity fraction must be between 0 and 1 (exclusive of 1)"⟩) := by
  refine ⟨fun v h0 h1 => ⟨lorentz_ok h0 h1, one_le_gammaVal h0 h1⟩, ?_, ?_, ?_⟩
  · rw [lorentz_ok le_rfl one_pos, gammaVal_zero]
  · intro v₁ v₂ h0 hlt h1
    have h0₂ : 0 ≤ v₂ := le_of_lt (lt_of_le_of_lt h0 hlt)
    have hs₂ : 0 < Real.sqrt (1 - v₂ ^ 2) := sqrt_one_sub_sq_pos h0₂ h1
    have hss : Real.sqrt (1 - v₂ ^ 2) < Real.sqrt (1 - v₁ ^ 2) := by
      apply Real.sqrt_lt_sqrt (by nlinarith)
      nlinarith
    exact one_div_lt_one_div_of_lt hs₂ hss
  · intro v hv
    rw [calculateLorentzFactor, if_pos hv]

/-- Witness for C5 at concrete velocities 3/5, the pair (1/2, 2/3), and
the invalid input 2. -/
theorem lorentz_factor_spec_witness :
    ((0 : ℝ) ≤ 3 / 5 ∧ (3 / 5 : ℝ) < 1 ∧
      (calculateLorentzFactor (3 / 5) = .ok (gammaVal (3 / 5)) ∧ 1 ≤ gammaVal (3 / 5))) ∧
    ((0 : ℝ) ≤ 1 / 2 ∧ (1 / 2 : ℝ) < 2 / 3 ∧ (2 / 3 : ℝ) < 1 ∧
      gammaVal (1 / 2) < gammaVal (2 / 3)) ∧
    (((2 : ℝ) < 0 ∨ 1 ≤ (2 : ℝ)) ∧
      calculateLorentzFactor 2 =
        .error ⟨"Velocity fraction must be between 0 and 1 (exclusive of 1)"⟩) :=
  ⟨⟨by norm_num, by norm_num,
      lorentz_factor_spec.1 (3 / 5) (by norm_num) (by norm_num)⟩,
   ⟨by norm_num, by norm_num, by norm_num,
      lorentz_factor_spec.2.2.1 (1 / 2) (2 / 3) (by norm_num) (by norm_num) (by norm_num)⟩,
   ⟨by norm_num, lorentz_factor_spec.2.2.2 2 (by norm_num)⟩⟩

/-- C10: identities at rest.  For every rest mass `m`, momentum at
`v = 0` is 0, kinetic energy at `v = 0` is 0, and total energy at
`v = 0` is `m · c²`; no error is raised at `v = 0` (all three return
`.ok`). -/
theorem rest_identities (m : ℝ) :
    calculateRelativisticMomentum m 0 = .ok 0 ∧
    calculateRelativisticKineticEnergy m 0 = .ok 0 ∧
    calculateTotalRelativisticEnergy m 0 = .ok (m * SPEED_OF_LIGHT ^ 2) := by
  have hγ := gammaVal_zero
  have hok := lorentz_ok (v := 0) le_rfl one_pos
  refine ⟨?_, ?_, ?_⟩ <;>
    simp [calculateRelativisticMomentum, calculateRelativisticKineticEnergy,
      calculateTotalRelativisticEnergy, hok, hγ, ok_bind, pure_ok]

end Lightspeed

namespace Lightspeed

/-- Shared evaluation: at `v = 0` the basic-effects record is returned
(valid velocity, so neither guard fires). -/
theorem allEffects_zero_ok :
    calculateAllEffects 0 =
      .ok { velocityFraction := 0, percentageOfLightSpeed := 0,
            lorentzFactor := 1, timeDilationFactor := 1,
            lengthContractionFactor := 1 } := by
  have hok := lorentz_ok (v := 0) le_rfl one_pos
  have hfp : fractionToPercentage 0 = .ok 0 := by
    rw [fractionToPercentage, if_neg (by norm_num)]
    norm_num
  simp only [calculateAllEffects, hok, gammaVal_zero, hfp, ok_bind, pure_ok]
  norm_num

/-- Shared evaluation: at `v = 0` the distance-effects record is returned
for every distance — no guard rejects a zero velocity anywhere on this
path; the divisions by the zero velocity go through unguarded. -/
theorem distanceEffects_zero_ok (d : ℝ) :
    ∃ r, calculateDistanceEffects d 0 = .ok r := by
  have hok := lorentz_ok (v := 0) le_rfl one_pos
  exact ⟨_, by
    simp only [calculateDistanceEffects, calculateContractedDistance,
      calculateProperTravelTimeInYears, calculateTravelTimeInYears,
      hok, ok_bind, pure_ok]
    rfl⟩

/-- C1 counterexample: at distance 1 light-year and velocity fraction 0,
`calculateAllEffectsWithDistance` does not fail — it returns a snapshot
(`.ok`), contradicting the claim that a `DomainError` is raised.  (In JS
the unguarded division `1 / 0` makes the travel-time fields `Infinity`.) -/
theorem journey_zero_velocity_counterexample :
    (calculateAllEffectsWithDistance 0 1).isOk = true := by
  obtain ⟨r, hr⟩ := distanceEffects_zero_ok 1
  simp only [calculateAllEffectsWithDistance, allEffects_zero_ok,
    ok_bind, hr, pure_ok, Except.isOk, Except.toBool]

/-- C1 amended: for every positive distance, calling the journey-effects
operation with velocity fraction 0 does **not** raise a `DomainError`:
the zero velocity passes the only guards (which reject `v < 0 || v >= 1`)
and the division by zero is performed silently, so a snapshot is
returned. -/
theorem journey_zero_velocity_no_error (d : ℝ) (_hd : 0 < d) :
    (calculateAllEffectsWithDistance 0 d).isOk = true := by
  obtain ⟨r, hr⟩ := distanceEffects_zero_ok d
  simp only [calculateAllEffectsWithDistance, allEffects_zero_ok,
    ok_bind, hr, pure_ok, Except.isOk, Except.toBool]

/-- Witness for the amended C1 theorem at distance 2. -/
theorem journey_zero_velocity_no_error_witness :
    (0 : ℝ) < 2 ∧ (calculateAllEffectsWithDistance 0 2).isOk = true :=
  ⟨by norm_num, journey_zero_velocity_no_error 2 (by norm_num)⟩

/-- C6: the round-trip identity.  For every valid velocity and every
proper time, dilated time times the length-contraction of a unit length
recovers the proper time exactly:
`timeDilation(t, v) * lengthContraction(1, v) = t`. -/
theorem dilation_contraction_round_trip (properTime v : ℝ)
    (h0 : 0 ≤ v) (h1 : v < 1) :
    calculateTimeDilation properTime v = .ok (properTime * gammaVal v) ∧
    calculateLengthContraction 1 v = .ok (1 / gammaVal v) ∧
    (properTime * gammaVal v) * (1 / gammaVal v) = properTime := by
  have hγ := gammaVal_pos h0 h1
  have hne : gammaVal v ≠ 0 := ne_of_gt hγ
  refine ⟨?_, ?_, ?_⟩
  · rw [calculateTimeDilation, lorentz_ok h0 h1, ok_bind, pure_ok]
  · rw [calculateLengthContraction, lorentz_ok h0 h1, ok_bind, pure_ok]
  · rw [mul_one_div, mul_div_cancel_right₀ _ hne]

/-- Witness for C6 at proper time 7 and velocity 3/5. -/
theorem dilation_contraction_round_trip_witness :
    (0 : ℝ) ≤ 3 / 5 ∧ (3 / 5 : ℝ) < 1 ∧
    (calculateTimeDilation 7 (3 / 5) = .ok (7 * gammaVal (3 / 5)) ∧
     calculateLengthContraction 1 (3 / 5) = .ok (1 / gammaVal (3 / 5)) ∧
     (7 * gammaVal (3 / 5)) * (1 / gammaVal (3 / 5)) = 7) :=
  ⟨by norm_num, by norm_num,
    dilation_contraction_round_trip 7 (3 / 5) (by norm_num) (by norm_num)⟩

/-- C7 counterexample: at `properLength = -4` and `v = 3/5` (where
γ = 5/4) the function returns `-16/5`, and `-16/5 ≤ -4` is false — so
"always ≤ properLength" fails when the sign of the proper length is
unrestricted. -/
theorem length_contraction_negative_counterexample :
    calculateLengthContraction (-4) (3 / 5) = .ok (-16 / 5) ∧
    ¬ ((-16 / 5 : ℝ) ≤ -4) := by
  have hs : Real.sqrt (1 - (3 / 5 : ℝ) ^ 2) = 4 / 5 := by
    rw [show (1 - (3 / 5 : ℝ) ^ 2) = (4 / 5) ^ 2 by norm_num]
    exact Real.sqrt_sq (by norm_num)
  constructor
  · rw [calculateLengthContraction, lorentz_ok (by norm_num) (by norm_num),
      ok_bind, pure_ok, gammaVal, hs]
    norm_num
  · norm_num

/-- C7 amended: for every valid velocity the contracted length equals
`properLength / γ(v)`, and it is at most the proper length whenever the
proper length is nonnegative. -/
theorem length_contraction_le (properLength v : ℝ) (h0 : 0 ≤ v) (h1 : v < 1) :
    calculateLengthContraction properLength v = .ok (properLength / gammaVal v) ∧
    (0 ≤ properLength → properLength / gammaVal v ≤ properLength) := by
  refine ⟨?_, fun hL => div_le_self hL (one_le_gammaVal h0 h1)⟩
  rw [calculateLengthContraction, lorentz_ok h0 h1, ok_bind, pure_ok]

/-- Witness for the amended C7 theorem at proper length 4 and velocity 3/5. -/
theorem length_contraction_le_witness :
    (0 : ℝ) ≤ 3 / 5 ∧ (3 / 5 : ℝ) < 1 ∧
    calculateLengthContraction 4 (3 / 5) = .ok (4 / gammaVal (3 / 5)) ∧
    4 / gammaVal (3 / 5) ≤ 4 :=
  ⟨by norm_num, by norm_num,
    (length_contraction_le 4 (3 / 5) (by norm_num) (by norm_num)).1,
    (length_contraction_le 4 (3 / 5) (by norm_num) (by norm_num)).2 (by norm_num)⟩

end Lightspeed

namespace Lightspeed

/-- C4 counterexample: with non-decreasing timestamps but a negative
current dilation factor, the observer (Earth) accumulator **decreases**
across a tick: from the state ⟨0, 0, 0, −1⟩ a tick at 1000 ms drives
`earthTime` to −1.  The claim's first conjunct (both accumulators
non-decreasing under any sequence of ticks with non-decreasing
timestamps) is therefore false as stated: nothing in the code
constrains the dilation factor's sign. -/
theorem clock_monotone_counterexample :
    monoStamps ⟨0, 0, 0, -1⟩ [ClockEvent.tick 1000] ∧
    ¬ ((⟨0, 0, 0, -1⟩ : ClockState).earthTime ≤
        (runEvents ⟨0, 0, 0, -1⟩ [ClockEvent.tick 1000]).earthTime) := by
  constructor
  · exact ⟨by norm_num, trivial⟩
  · norm_num [runEvents, applyEvent, tick]

/-- C4 amended: under any event sequence whose tick timestamps are
non-decreasing, the traveler (spacecraft) accumulator is non-decreasing;
the observer (Earth) accumulator is non-decreasing provided every
dilation factor in play is nonnegative; and if every dilation factor in
play is at least 1, then any state satisfying observer ≥ traveler (in
particular the reset state, where both are 0) keeps observer ≥ traveler
after the whole sequence — hence, by instantiating at every prefix,
after every tick. -/
theorem clock_accumulators_monotone (es : List ClockEvent) :
    ∀ s : ClockState, monoStamps s es →
      (s.spacecraftTime ≤ (runEvents s es).spacecraftTime) ∧
      (factorsGe 0 s es → s.earthTime ≤ (runEvents s es).earthTime) ∧
      (factorsGe 1 s es → s.spacecraftTime ≤ s.earthTime →
        (runEvents s es).spacecraftTime ≤ (runEvents s es).earthTime) := by
  induction es with
  | nil =>
    intro s _
    exact ⟨le_rfl, fun _ => le_rfl, fun _ h => h⟩
  | cons e es ih =>
    intro s hm
    cases e with
    | tick now =>
      obtain ⟨hle, hm'⟩ := hm
      have hrun : runEvents s (ClockEvent.tick now :: es) =
          runEvents (tick s now) es := rfl
      have hdelta : 0 ≤ (now - s.lastUpdate) / 1000 :=
        div_nonneg (by linarith) (by norm_num)
      have hspace : s.spacecraftTime ≤ (tick s now).spacecraftTime := by
        simp only [tick]
        linarith
      have hdil : (tick s now).currentTimeDilation = s.currentTimeDilation := rfl
      obtain ⟨ih1, ih2, ih3⟩ := ih (tick s now) hm'
      refine ⟨?_, ?_, ?_⟩
      · rw [hrun]
        exact le_trans hspace ih1
      · intro hf
        have hearth : s.earthTime ≤ (tick s now).earthTime := by
          simp only [tick]
          nlinarith [mul_nonneg hdelta hf.1]
        have hf' : factorsGe 0 (tick s now) es :=
          ⟨by rw [hdil]; exact hf.1,
            fun e he g hg => hf.2 e (List.mem_cons_of_mem _ he) g hg⟩
        rw [hrun]
        exact le_trans hearth (ih2 hf')
      · intro hf hinv
        have hone : (0 : ℚ) ≤ s.currentTimeDilation - 1 := by
          linarith [hf.1]
        have hinv' : (tick s now).spacecraftTime ≤ (tick s now).earthTime := by
          simp only [tick]
          nlinarith [mul_nonneg hdelta hone]
        have hf' : factorsGe 1 (tick s now) es :=
          ⟨by rw [hdil]; exact hf.1,
            fun e he g hg => hf.2 e (List.mem_cons_of_mem _ he) g hg⟩
        rw [hrun]
        exact ih3 hf' hinv'
    | setFactor g =>
      have hm' : monoStamps (setDilationFactor s g) es := hm
      have hrun : runEvents s (ClockEvent.setFactor g :: es) =
          runEvents (setDilationFactor s g) es := rfl
      obtain ⟨ih1, ih2, ih3⟩ := ih (setDilationFactor s g) hm'
      refine ⟨?_, ?_, ?_⟩
      · rw [hrun]
        exact ih1
      · intro hf
        have hcg : (0 : ℚ) ≤ g :=
          hf.2 (ClockEvent.setFactor g) (List.mem_cons_self _ _) g rfl
        have hf' : factorsGe 0 (setDilationFactor s g) es :=
          ⟨hcg, fun e he g' hg => hf.2 e (List.mem_cons_of_mem _ he) g' hg⟩
        rw [hrun]
        exact ih2 hf'
      · intro hf hinv
        have hcg : (1 : ℚ) ≤ g :=
          hf.2 (ClockEvent.setFactor g) (List.mem_cons_self _ _) g rfl
        have hf' : factorsGe 1 (setDilationFactor s g) es :=
          ⟨hcg, fun e he g' hg => hf.2 e (List.mem_cons_of_mem _ he) g' hg⟩
        rw [hrun]
        exact ih3 hf' hinv

/-- Witness for the amended C4 theorem: the reset state with factor 2
and the sequence tick(1000 ms), setFactor(5), tick(2000 ms). -/
theorem clock_accumulators_monotone_witness :
    monoStamps ⟨0, 0, 0, 2⟩
        [ClockEvent.tick 1000, ClockEvent.setFactor 5, ClockEvent.tick 2000] ∧
    (⟨0, 0, 0, 2⟩ : ClockState).spacecraftTime ≤
      (runEvents ⟨0, 0, 0, 2⟩
        [ClockEvent.tick 1000, ClockEvent.setFactor 5, ClockEvent.tick 2000]).spacecraftTime ∧
    (⟨0, 0, 0, 2⟩ : ClockState).earthTime ≤
      (runEvents ⟨0, 0, 0, 2⟩
        [ClockEvent.tick 1000, ClockEvent.setFactor 5, ClockEvent.tick 2000]).earthTime ∧
    (runEvents ⟨0, 0, 0, 2⟩
        [ClockEvent.tick 1000, ClockEvent.setFactor 5, ClockEvent.tick 2000]).spacecraftTime ≤
      (runEvents ⟨0, 0, 0, 2⟩
        [ClockEvent.tick 1000, ClockEvent.setFactor 5, ClockEvent.tick 2000]).earthTime := by
  have hm : monoStamps ⟨0, 0, 0, 2⟩
      [ClockEvent.tick 1000, ClockEvent.setFactor 5, ClockEvent.tick 2000] := by
    simp only [monoStamps, tick, setDilationFactor]
    norm_num
  have hf0 : factorsGe 0 ⟨0, 0, 0, 2⟩
      [ClockEvent.tick 1000, ClockEvent.setFactor 5, ClockEvent.tick 2000] := by
    constructor
    · norm_num
    · intro e he g hg
      subst hg
      simp only [List.mem_cons, List.not_mem_nil, or_false] at he
      rcases he with he | he | he
      · exact ClockEvent.noConfusion he
      · injection he with h5
        subst h5
        norm_num
      · exact ClockEvent.noConfusion he
  have hf1 : factorsGe 1 ⟨0, 0, 0, 2⟩
      [ClockEvent.tick 1000, ClockEvent.setFactor 5, ClockEvent.tick 2000] := by
    constructor
    · norm_num
    · intro e he g hg
      subst hg
      simp only [List.mem_cons, List.not_mem_nil, or_false] at he
      rcases he with he | he | he
      · exact ClockEvent.noConfusion he
      · injection he with h5
        subst h5
        norm_num
      · exact ClockEvent.noConfusion he
  obtain ⟨h₁, h₂, h₃⟩ := clock_accumulators_monotone _ ⟨0, 0, 0, 2⟩ hm
  exact ⟨hm, h₁, h₂ hf0, h₃ hf1 (by norm_num)⟩

end Lightspeed

namespace Lightspeed

/-- C8 counterexample: `formatTime` performs no input validation.  At
input −1 year it does not fail (it has no failure path at all) and
returns a `FormattedTime` whose hours component is the negative value
−8766 — contradicting both the claimed `DomainError` on negative input
and the claimed nonnegativity of all components. -/
theorem formatTime_negative_counterexample :
    (formatTime (-1 : ℚ)).hours = some (-8766) ∧ ¬ (0 ≤ (-8766 : ℚ)) := by
  constructor
  · have h1 : ¬ (1 : ℚ) ≤ -1 := by norm_num
    have h2 : ¬ (DAYS_PER_MONTH : ℚ) ≤ -1 * DAYS_PER_YEAR := by
      norm_num [DAYS_PER_MONTH, DAYS_PER_YEAR]
    have h3 : ¬ (1 : ℚ) ≤ -1 * DAYS_PER_YEAR := by norm_num [DAYS_PER_YEAR]
    have hk : jsRound ((-1 : ℚ) * DAYS_PER_YEAR * HOURS_PER_DAY * 10) = -87660 := by
      norm_num [jsRound, DAYS_PER_YEAR, HOURS_PER_DAY]
    simp only [formatTime, if_neg h1, if_neg h2, if_neg h3, hk]
    norm_num
  · norm_num

/-- C8 amended: `formatTime` does not reject negative input (it is a
total function with no error path; at input −1 it even returns a
negative hours component, see the counterexample); and for every
nonnegative input, every populated component of the result is
nonnegative. -/
theorem formatTime_nonneg (t : ℚ) (ht : 0 ≤ t) :
    (∀ y ∈ (formatTime t).years, 0 ≤ y) ∧
    (∀ m ∈ (formatTime t).months, 0 ≤ m) ∧
    (∀ d ∈ (formatTime t).days, 0 ≤ d) ∧
    (∀ h ∈ (formatTime t).hours, 0 ≤ h) := by
  have htD : (0 : ℚ) ≤ t * DAYS_PER_YEAR :=
    mul_nonneg ht (by norm_num [DAYS_PER_YEAR])
  by_cases h1 : (1 : ℚ) ≤ t
  · simp only [formatTime, if_pos h1]
    simpa using ht
  · by_cases h2 : (DAYS_PER_MONTH : ℚ) ≤ t * DAYS_PER_YEAR
    · simp only [formatTime, if_neg h1, if_pos h2]
      refine ⟨by simp, ?_, ?_, ?_⟩ <;> simp only [Option.mem_def, Option.some.injEq] <;>
        rintro x rfl
      · exact Int.cast_nonneg.mpr (Int.floor_nonneg.mpr
          (div_nonneg htD (by norm_num [DAYS_PER_MONTH])))
      · exact Int.cast_nonneg.mpr (Int.floor_nonneg.mpr
          (jsMod_nonneg htD (by norm_num [DAYS_PER_MONTH])))
      · exact Int.cast_nonneg.mpr (Int.floor_nonneg.mpr
          (mul_nonneg (jsMod_nonneg htD one_pos) (by norm_num [HOURS_PER_DAY])))
    · by_cases h3 : (1 : ℚ) ≤ t * DAYS_PER_YEAR
      · simp only [formatTime, if_neg h1, if_neg h2, if_pos h3]
        refine ⟨by simp, by simp, ?_, ?_⟩ <;> simp only [Option.mem_def, Option.some.injEq] <;>
          rintro x rfl
        · exact Int.cast_nonneg.mpr (Int.floor_nonneg.mpr htD)
        · exact Int.cast_nonneg.mpr (Int.floor_nonneg.mpr
            (mul_nonneg (jsMod_nonneg htD one_pos) (by norm_num [HOURS_PER_DAY])))
      · simp only [formatTime, if_neg h1, if_neg h2, if_neg h3]
        refine ⟨by simp, by simp, by simp, ?_⟩
        simp only [Option.mem_def, Option.some.injEq]
        rintro x rfl
        refine div_nonneg (Int.cast_nonneg.mpr ?_) (by norm_num)
        rw [jsRound]
        refine Int.floor_nonneg.mpr ?_
        have hx : (0 : ℚ) ≤ t * DAYS_PER_YEAR * HOURS_PER_DAY * 10 :=
          mul_nonneg (mul_nonneg htD (by norm_num [HOURS_PER_DAY])) (by norm_num)
        linarith

/-- Witness for the amended C8 theorem at input 2 years. -/
theorem formatTime_nonneg_witness :
    (0 : ℚ) ≤ 2 ∧
    ((∀ y ∈ (formatTime (2 : ℚ)).years, 0 ≤ y) ∧
     (∀ m ∈ (formatTime (2 : ℚ)).months, 0 ≤ m) ∧
     (∀ d ∈ (formatTime (2 : ℚ)).days, 0 ≤ d) ∧
     (∀ h ∈ (formatTime (2 : ℚ)).hours, 0 ≤ h)) :=
  ⟨by norm_num, formatTime_nonneg 2 (by norm_num)⟩

end Lightspeed

namespace Lightspeed

/-- An integer-valued unit token built with the source's
`value !== 1 ? "s" : ""` conditional satisfies the implemented
pluralization rule. -/
theorem pluralRule_int (n : ℤ) (numS unit : String)
    (hu : endsInS (unit ++ "s") = true) (hu2 : endsInS unit = false)
    (hne : unit ≠ " years") :
    pluralRule (numS, (n : ℚ), unit ++ (if n = 1 then "" else "s")) := by
  show endsInS (unit ++ (if n = 1 then "" else "s")) = true ↔
    ((n : ℚ) ≠ 1 ∨ (unit ++ (if n = 1 then "" else "s")) = " years")
  by_cases h : n = 1
  · rw [if_pos h, String.append_empty]
    refine iff_of_false (by simp [hu2]) ?_
    rintro (hv | hs)
    · exact hv (by exact_mod_cast h)
    · exact hne hs
  · rw [if_neg h]
    exact iff_of_true hu (Or.inl (by exact_mod_cast h))

/-- The hours token of the sub-day branch (whose value is a rational,
rounded to tenths) satisfies the implemented pluralization rule. -/
theorem pluralRule_tenths (numS : String) (q : ℚ) :
    pluralRule (numS, q, " hour" ++ (if q = 1 then "" else "s")) := by
  show endsInS (" hour" ++ (if q = 1 then "" else "s")) = true ↔
    (q ≠ 1 ∨ (" hour" ++ (if q = 1 then "" else "s")) = " years")
  by_cases h : q = 1
  · rw [if_pos h, String.append_empty]
    refine iff_of_false (by decide) ?_
    rintro (hv | hs)
    · exact hv h
    · exact absurd hs (by decide)
  · rw [if_neg h]
    exact iff_of_true (by decide) (Or.inl h)

/-- C9 amended: the canonical string of `formatTime` is exactly the
comma-separated join of its rendered unit tokens, and every token obeys
the implemented pluralization rule: the unit carries the plural marker
iff its value is not 1 **or** it is the years unit — the years unit is
always rendered plural (`"... years"`), even at exactly 1. -/
theorem formatTime_pluralization (t : ℚ) :
    (formatTime t).formatted = joinTokens (formatTokens t) ∧
    (formatTokens t).Forall pluralRule := by
  by_cases h1 : (1 : ℚ) ≤ t
  · constructor
    · simp only [formatTime, formatTokens, if_pos h1, joinTokens, renderTok,
        List.foldl_nil]
    · simp only [formatTokens, if_pos h1, List.Forall]
      show endsInS " years" = true ↔ (t ≠ 1 ∨ (" years" : String) = " years")
      exact iff_of_true (by decide) (Or.inr rfl)
  · by_cases h2 : (DAYS_PER_MONTH : ℚ) ≤ t * DAYS_PER_YEAR
    · by_cases hdy : (0 : ℤ) < ⌊jsMod (t * DAYS_PER_YEAR) DAYS_PER_MONTH⌋ <;>
        by_cases hhr : (0 : ℤ) < ⌊jsMod (t * DAYS_PER_YEAR) 1 * HOURS_PER_DAY⌋ <;>
        constructor
      · simp only [formatTime, formatTokens, if_neg h1, if_pos h2, if_pos hdy,
          if_pos hhr, List.singleton_append, List.cons_append, List.nil_append,
          joinTokens, renderTok, List.foldl_cons, List.foldl_nil]
      · simp only [formatTokens, if_neg h1, if_pos h2, if_pos hdy, if_pos hhr,
          List.singleton_append, List.cons_append, List.nil_append, List.Forall]
        exact ⟨pluralRule_int _ _ " month" (by decide) (by decide) (by decide),
          pluralRule_int _ _ " day" (by decide) (by decide) (by decide),
          pluralRule_int _ _ " hour" (by decide) (by decide) (by decide)⟩
      · simp only [formatTime, formatTokens, if_neg h1, if_pos h2, if_pos hdy,
          if_neg hhr, List.singleton_append, List.cons_append, List.nil_append,
          List.append_nil, String.append_empty,
          joinTokens, renderTok, List.foldl_cons, List.foldl_nil]
      · simp only [formatTokens, if_neg h1, if_pos h2, if_pos hdy, if_neg hhr,
          List.singleton_append, List.cons_append, List.nil_append,
          List.append_nil, List.Forall]
        exact ⟨pluralRule_int _ _ " month" (by decide) (by decide) (by decide),
          pluralRule_int _ _ " day" (by decide) (by decide) (by decide)⟩
      · simp only [formatTime, formatTokens, if_neg h1, if_pos h2, if_neg hdy,
          if_pos hhr, List.singleton_append, List.cons_append, List.nil_append,
          List.append_nil, String.append_empty,
          joinTokens, renderTok, List.foldl_cons, List.foldl_nil]
      · simp only [formatTokens, if_neg h1, if_pos h2, if_neg hdy, if_pos hhr,
          List.singleton_append, List.cons_append, List.nil_append,
          List.append_nil, List.Forall]
        exact ⟨pluralRule_int _ _ " month" (by decide) (by decide) (by decide),
          pluralRule_int _ _ " hour" (by decide) (by decide) (by decide)⟩
      · simp only [formatTime, formatTokens, if_neg h1, if_pos h2, if_neg hdy,
          if_neg hhr, List.singleton_append, List.cons_append, List.nil_append,
          List.append_nil, String.append_empty,
          joinTokens, renderTok, List.foldl_cons, List.foldl_nil]
      · simp only [formatTokens, if_neg h1, if_pos h2, if_neg hdy, if_neg hhr,
          List.singleton_append, List.cons_append, List.nil_append,
          List.append_nil, List.Forall]
        exact pluralRule_int _ _ " month" (by decide) (by decide) (by decide)
    · by_cases h3 : (1 : ℚ) ≤ t * DAYS_PER_YEAR
      · by_cases hhr : (0 : ℤ) < ⌊jsMod (t * DAYS_PER_YEAR) 1 * HOURS_PER_DAY⌋ <;>
          constructor
        · simp only [formatTime, formatTokens, if_neg h1, if_neg h2, if_pos h3,
            if_pos hhr, List.singleton_append, List.cons_append, List.nil_append,
            joinTokens, renderTok, List.foldl_cons, List.foldl_nil]
        · simp only [formatTokens, if_neg h1, if_neg h2, if_pos h3, if_pos hhr,
            List.singleton_append, List.cons_append, List.nil_append, List.Forall]
          exact ⟨pluralRule_int _ _ " day" (by decide) (by decide) (by decide),
            pluralRule_int _ _ " hour" (by decide) (by decide) (by decide)⟩
        · simp only [formatTime, formatTokens, if_neg h1, if_neg h2, if_pos h3,
            if_neg hhr, List.singleton_append, List.cons_append, List.nil_append,
            List.append_nil, String.append_empty,
            joinTokens, renderTok, List.foldl_cons, List.foldl_nil]
        · simp only [formatTokens, if_neg h1, if_neg h2, if_pos h3, if_neg hhr,
            List.singleton_append, List.cons_append, List.nil_append,
            List.append_nil, List.Forall]
          exact pluralRule_int _ _ " day" (by decide) (by decide) (by decide)
      · constructor
        · simp only [formatTime, formatTokens, if_neg h1, if_neg h2, if_neg h3,
            joinTokens, renderTok, List.foldl_nil]
        · simp only [formatTokens, if_neg h1, if_neg h2, if_neg h3, List.Forall]
          exact pluralRule_tenths _ _

/-- C9 counterexample: at exactly one year the canonical string is
"1.00 years" — the years unit keeps the plural marker although the
component value is exactly 1, refuting the claimed iff between the
plural marker and the value being different from 1. -/
theorem formatTime_plural_years_counterexample :
    (formatTime (1 : ℚ)).formatted = "1.00 years" ∧
    ¬ (formatTokens (1 : ℚ)).Forall pluralIffNeOne := by
  have hfix : jsToFixed2 (1 : ℚ) = "1.00" := by
    have hr : jsRound ((1 : ℚ) * 100) = 100 := by norm_num [jsRound]
    simp only [jsToFixed2, hr]
    decide
  constructor
  · simp only [formatTime, if_pos (le_refl (1 : ℚ)), hfix]
    decide
  · intro hall
    rw [formatTokens, if_pos (le_refl (1 : ℚ))] at hall
    have hone : pluralIffNeOne ((jsToFixed2 (1 : ℚ)), (1 : ℚ), " years") := by
      simpa [List.Forall] using hall
    have hys : endsInS " years" = true := by decide
    exact hone.mp hys rfl

end Lightspeed

namespace Lightspeed

/-- Witness for C10 at rest mass 3 kg. -/
theorem rest_identities_witness :
    calculateRelativisticMomentum 3 0 = .ok 0 ∧
    calculateRelativisticKineticEnergy 3 0 = .ok 0 ∧
    calculateTotalRelativisticEnergy 3 0 = .ok (3 * SPEED_OF_LIGHT ^ 2) :=
  rest_identities 3

/-- Witness for the amended C9 theorem at half a year. -/
theorem formatTime_pluralization_witness :
    (formatTime (1 / 2 : ℚ)).formatted = joinTokens (formatTokens (1 / 2 : ℚ)) ∧
    (formatTokens (1 / 2 : ℚ)).Forall pluralRule :=
  formatTime_pluralization (1 / 2)

end Lightspeed
